import Mathlib

/-!
Shallow embedding of the sandboxed Python script worker
(src/backend/src/services/script/worker/pythonWorker.py).

Modelling conventions:
* Machine/driver nondeterminism (the psycopg2/pymongo drivers, the
  environment) is passed in explicitly: each database call carries the
  driver's response, connection attempts consult an oracle in `World`.
* Wall-clock timestamps on output events are abstracted away (no claim
  mentions them); elapsed milliseconds reported by a call are part of the
  driver response.
* The whole execution is recorded as a single ordered trace of entries:
  output events (OutputCapture.add) interleaved with externally visible
  driver effects (connect attempts, execute/commit/rollback, Mongo deletes,
  session close).  The result's `output` field is the event sublist.
* A script body is represented by its parsed behaviour: either a syntax
  error (compile() raises) or a list of sandbox interactions.
-/

namespace PythonWorker

/-- Value of an extra field on an output event (Python kwargs hold strings
and integers here). -/
inductive ExtraVal where
  | s (v : String)
  | n (v : Nat)
  | i (v : Int)
deriving Repr, DecidableEq

/-- One structured output item appended by `OutputCapture.add`:
`{'type': ..., 'message': ..., 'timestamp': ..., **extras}` with the
timestamp abstracted away. -/
structure OutputEvent where
  ty : String
  message : String
  extras : List (String × ExtraVal)
deriving Repr, DecidableEq

/-- Parameters handed to `psycopg2.connect(**connection_params)`. -/
structure ConnParams where
  host : String
  port : Nat
  database : String
  user : String
  password : String
deriving Repr, DecidableEq

/-- One entry of the execution trace: an output event or an externally
visible driver/session effect. -/
inductive TraceEntry where
  | ev (e : OutputEvent)
  | pgConnectAttempt (params : ConnParams)
  | mongoConnectAttempt (uri : String) (databaseName : String)
  | sessionOpen
  | pgExec (sql : String)
  | pgCommit
  | pgRollback
  | mongoDelete (coll : String) (filt : Option (List (String × String)))
  | sessionClose
  | scriptStart
deriving Repr, DecidableEq

/-- Append one output event to the trace (`OutputCapture.add`). -/
def emit (tr : List TraceEntry) (ty message : String)
    (extras : List (String × ExtraVal)) : List TraceEntry :=
  tr ++ [.ev ⟨ty, message, extras⟩]

/-- The events of a trace, in order: this is `OutputCapture.items`. -/
def eventsOf (tr : List TraceEntry) : List OutputEvent :=
  tr.filterMap fun t => match t with | .ev e => some e | _ => none

/-- Number of `db_wrapper.close()` invocations recorded in a trace. -/
def closeCalls (tr : List TraceEntry) : Nat :=
  tr.countP fun t => t = .sessionClose

/-- Number of successfully constructed database wrapper sessions. -/
def opens (tr : List TraceEntry) : Nat :=
  tr.countP fun t => t = .sessionOpen

/-- Number of database connection attempts (psycopg2.connect / MongoClient). -/
def connectAttempts (tr : List TraceEntry) : Nat :=
  tr.countP fun t =>
    match t with
    | .pgConnectAttempt _ => true
    | .mongoConnectAttempt _ _ => true
    | _ => false

/-- Number of script bodies that began executing (`exec(...)` reached). -/
def scriptStarts (tr : List TraceEntry) : Nat :=
  tr.countP fun t => t = .scriptStart

/-- Number of transaction rollbacks recorded in a trace. -/
def rollbacks (tr : List TraceEntry) : Nat :=
  tr.countP fun t => t = .pgRollback

/-- A Python exception, by its type name and `str(e)`. -/
structure PyExc where
  ty : String
  msg : String
deriving Repr, DecidableEq

-- =========================================================================
-- Capability gate: module whitelist and restricted import
-- =========================================================================

/-- ALLOWED_MODULES, in source order. -/
def ALLOWED_MODULES : List String :=
  ["json", "datetime", "re", "math", "time", "collections", "functools", "itertools"]

/-- sorted(ALLOWED_MODULES), as interpolated into the rejection message. -/
def SORTED_ALLOWED_MODULES : List String :=
  ["collections", "datetime", "functools", "itertools", "json", "math", "re", "time"]

/-- The pre-import loop at module load: every whitelisted module imports
successfully, so the cache holds exactly the whitelist (modules are
represented by their names). -/
def PRELOADED_MODULES : List String := ALLOWED_MODULES

/-- Message of the ImportError raised for a non-whitelisted module. -/
def importRejectedMsg (name : String) : String :=
  "Module '" ++ name ++ "' is not allowed. Allowed modules: " ++
    String.intercalate ", " SORTED_ALLOWED_MODULES

/-- Base module name: `name.split('.')[0]`, the segment before the first
dot (the whole name when it has no dot). -/
def baseModule (name : String) : String :=
  String.mk (name.toList.takeWhile fun c => c ≠ '.')

/-- `restricted_import`: resolve `name` against the whitelist; `.error` is
the raised ImportError's message. -/
def restricted_import (name : String) : Except String String :=
  let base := baseModule name
  if base ∈ ALLOWED_MODULES then
    if base ∈ PRELOADED_MODULES then .ok base
    else .error ("Module '" ++ name ++ "' could not be loaded")
  else .error (importRejectedMsg name)

-- =========================================================================
-- Postgres wrapper
-- =========================================================================

/-- What the driver reports for one successful `cursor.execute` (plus the
fetch that follows in the SELECT branch): rows from `fetchall()`, field
names from `cursor.description`, `cursor.rowcount`, and the elapsed
milliseconds observed for the call. -/
structure PgOk where
  rows : List (List (String × String))
  fields : Option (List String)
  rowcount : Int
  durMs : Nat
deriving Repr, DecidableEq

/-- Driver outcome of one Postgres call. -/
inductive PgResp where
  | ok (r : PgOk)
  | fail (exc : PyExc)
deriving Repr, DecidableEq

/-- PostgresWrapper state: the shared trace plus the wrapper fields set in
`__init__` (`readonly`, `query_count`). -/
structure PgW where
  trace : List TraceEntry
  readonly : Bool
  query_count : Nat
deriving Repr, DecidableEq

/-- Dict returned by `PostgresWrapper.query` (optional keys as options). -/
structure PgQueryResult where
  rows : List (List (String × String))
  rowCount : Int
  rowsAffected : Option Int
  fields : Option (List String)
deriving Repr, DecidableEq

/-- First whitespace-separated token of the statement:
`sql.strip().split()[0]`, absent when the statement is all whitespace. -/
def firstToken (sql : String) : Option String :=
  ((sql.split fun c => c.isWhitespace).filter fun t => t ≠ "").head?

/-- Statement text as logged: `sql[:200] + ('...' if len(sql) > 200 else '')`. -/
def truncSql (sql : String) : String :=
  sql.take 200 ++ (if sql.length > 200 then "..." else "")

/-- Error event appended on a failed Postgres call (no statement text). -/
def pgErrEvent (n : Nat) (emsg : String) : OutputEvent :=
  ⟨"error", "Query " ++ toString n ++ " failed: " ++ emsg,
    [("queryNumber", .n n), ("error", .s emsg)]⟩

/-- Query event appended on the SELECT branch. -/
def pgSelectEvent (n : Nat) (qt sql : String) (rc durMs : Nat) : OutputEvent :=
  ⟨"query",
    "Query " ++ toString n ++ " (" ++ qt ++ "): " ++ toString rc ++
      " rows in " ++ toString durMs ++ "ms",
    [("queryNumber", .n n), ("queryType", .s qt), ("sql", .s (truncSql sql)),
     ("duration", .s (toString durMs ++ "ms")), ("rowCount", .n rc)]⟩

/-- Query event appended on the mutating branch. -/
def pgMutEvent (n : Nat) (qt sql : String) (rc : Int) (durMs : Nat) : OutputEvent :=
  ⟨"query",
    "Query " ++ toString n ++ " (" ++ qt ++ "): " ++ toString rc ++
      " rows affected in " ++ toString durMs ++ "ms",
    [("queryNumber", .n n), ("queryType", .s qt), ("sql", .s (truncSql sql)),
     ("duration", .s (toString durMs ++ "ms")), ("rowsAffected", .i rc)]⟩

/-- `PostgresWrapper.query(sql, params)` with the driver outcome `resp`
passed in.  On failure the transaction is rolled back, an error event is
appended and the driver's exception is re-raised; on success the call is
classified by the leading keyword (an all-whitespace statement makes
`sql.strip().split()[0]` raise IndexError inside the same try block). -/
def PostgresWrapper.query (w : PgW) (sql : String)
    (params : Option (List String)) (resp : PgResp) :
    PgW × Except PyExc PgQueryResult :=
  let n := w.query_count + 1
  let tr := w.trace ++ [.pgExec sql]
  let failPath : PyExc → PgW × Except PyExc PgQueryResult := fun exc =>
    ({ trace := (tr ++ [.pgRollback]) ++ [.ev (pgErrEvent n exc.msg)],
       readonly := w.readonly, query_count := n }, .error exc)
  match resp with
  | .fail exc => failPath exc
  | .ok r =>
    match firstToken sql with
    | none => failPath ⟨"IndexError", "list index out of range"⟩
    | some tok =>
      let qt := tok.toUpper
      if qt = "SELECT" then
        let rc := r.rows.length
        ({ trace := tr ++ [.ev (pgSelectEvent n qt sql rc r.durMs)],
           readonly := w.readonly, query_count := n },
         .ok { rows := r.rows, rowCount := (rc : Int), rowsAffected := none,
               fields := some (r.fields.getD []) })
      else
        ({ trace := (tr ++ [.pgCommit]) ++ [.ev (pgMutEvent n qt sql r.rowcount r.durMs)],
           readonly := w.readonly, query_count := n },
         .ok { rows := [], rowCount := r.rowcount, rowsAffected := some r.rowcount,
               fields := none })

/-- `PostgresWrapper.execute`: `query` restricted to
`result.get('rowsAffected', 0)`. -/
def PostgresWrapper.execute (w : PgW) (sql : String)
    (params : Option (List String)) (resp : PgResp) : PgW × Except PyExc Int :=
  match PostgresWrapper.query w sql params resp with
  | (w2, .ok r) => (w2, .ok (r.rowsAffected.getD 0))
  | (w2, .error e) => (w2, .error e)

/-- `PostgresWrapper.close`: closes cursor and connection; never raises. -/
def PostgresWrapper.close (w : PgW) : PgW :=
  { w with trace := w.trace ++ [.sessionClose] }

-- =========================================================================
-- Mongo wrapper
-- =========================================================================

/-- MongoWrapper state: the shared trace plus `op_count`. -/
structure MongoW where
  trace : List TraceEntry
  op_count : Nat
deriving Repr, DecidableEq

/-- Python's `str(...)` rendering of a filter dict (keys to already
rendered values); the exact text is immaterial to the claims, only its
100-character truncation is logged. -/
def renderDict (f : List (String × String)) : String :=
  "\x7b" ++ String.intercalate ", " (f.map fun kv => "'" ++ kv.1 ++ "': " ++ kv.2) ++ "\x7d"

/-- `MongoWrapper._log_op`: bump the operation counter and append one audit
event — warn severity for operations classified critical (`drop`,
`dropDatabase`, `deleteMany`, with only the caller's details as extras),
query severity otherwise (tagged with opNumber/operation/collection). -/
def MongoWrapper.logOp (w : MongoW) (coll op : String)
    (details : List (String × ExtraVal)) : MongoW :=
  let n := w.op_count + 1
  let message := "Op " ++ toString n ++ ": " ++ coll ++ "." ++ op ++ "()"
  if op = "drop" ∨ op = "dropDatabase" ∨ op = "deleteMany" then
    { trace := emit w.trace "warn" ("CRITICAL: " ++ message) details, op_count := n }
  else
    { trace := emit w.trace "query" message
        ([("opNumber", .n n), ("operation", .s op), ("collection", .s coll)] ++ details),
      op_count := n }

/-- The high-risk extras logged for an empty/absent deleteMany filter. -/
def deleteAllDetails : List (String × ExtraVal) :=
  [("warning", .s "DELETING ALL DOCUMENTS"), ("risk", .s "critical")]

/-- The single warn event `_log_op` appends for an empty/absent-filter
deleteMany: critical severity, high-risk details (shaped exactly as
`MongoWrapper.logOp` builds it). -/
def deleteManyWarnEvent (n : Nat) (coll : String) : OutputEvent :=
  ⟨"warn", "CRITICAL: " ++ ("Op " ++ toString n ++ ": " ++ coll ++ "." ++ "deleteMany" ++ "()"),
    deleteAllDetails⟩

/-- `MongoCollectionWrapper.deleteMany(filter)`: log (high-risk details when
the filter is empty or absent), then run the underlying `delete_many`
(recorded as a driver effect; `deleted` is the count it reports). -/
def MongoCollectionWrapper.deleteMany (w : MongoW) (coll : String)
    (filt : Option (List (String × String))) (deleted : Nat) : MongoW × Nat :=
  let w2 :=
    match filt with
    | none => MongoWrapper.logOp w coll "deleteMany" deleteAllDetails
    | some [] => MongoWrapper.logOp w coll "deleteMany" deleteAllDetails
    | some f => MongoWrapper.logOp w coll "deleteMany" [("filter", .s ((renderDict f).take 100))]
  ({ w2 with trace := w2.trace ++ [.mongoDelete coll filt] }, deleted)

/-- `MongoWrapper.close`: closes the client; never raises. -/
def MongoWrapper.close (w : MongoW) : MongoW :=
  { w with trace := w.trace ++ [.sessionClose] }

-- =========================================================================
-- Mongo find cursor (object identity modelled through a store)
-- =========================================================================

/-- The query specification carried by an underlying driver cursor: the
limit/skip/sort settings applied so far. -/
structure CursorSpec where
  limitN : Option Int
  skipN : Option Int
  sortSpec : Option (String × Option Int)
deriving Repr, DecidableEq

/-- Heap of live MongoFindCursor objects, by object identity. -/
abbrev CursorStore := Nat → CursorSpec

/-- Overwrite one cursor's specification in the store. -/
def CursorStore.update (σ : CursorStore) (cid : Nat) (s : CursorSpec) : CursorStore :=
  fun j => if j = cid then s else σ j

/-- `MongoFindCursor.limit`: `self._cursor = self._cursor.limit(n); return self`
— reassigns the handle's own specification and returns the same handle. -/
def MongoFindCursor.limit (σ : CursorStore) (cid : Nat) (n : Int) : CursorStore × Nat :=
  (σ.update cid { σ cid with limitN := some n }, cid)

/-- `MongoFindCursor.skip`: same shape as `limit`. -/
def MongoFindCursor.skip (σ : CursorStore) (cid : Nat) (n : Int) : CursorStore × Nat :=
  (σ.update cid { σ cid with skipN := some n }, cid)

/-- `MongoFindCursor.sort(key_or_list, direction)`: same shape as `limit`. -/
def MongoFindCursor.sort (σ : CursorStore) (cid : Nat) (key : String)
    (direction : Option Int) : CursorStore × Nat :=
  (σ.update cid { σ cid with sortSpec := some (key, direction) }, cid)

-- =========================================================================
-- Config document and connection-parameter assembly
-- =========================================================================

/-- A script body as parsed by `compile(script_content, '<script>', 'exec')`:
either a syntax error, or the sequence of sandbox interactions the body
performs (each database action carrying its driver response). -/
inductive SAct where
  | print (args : List String)
  | importName (name : String)
  | raiseExc (ty msg : String)
  | dbQuery (sql : String) (params : Option (List String)) (resp : PgResp)
deriving Repr

/-- Script content, represented by its parse result. -/
inductive Script where
  | invalid (lineno : Nat) (emsg : String)
  | valid (body : List SAct)
deriving Repr

/-- The `instance` object of the config (a JSON mapping with optional keys). -/
structure InstanceDoc where
  id : Option String
  host : Option String
  port : Option Nat
  user : Option String
  password : Option String
  credentialsEnvPrefix : Option String
  uri : Option String
  connectionString : Option String
deriving Repr

/-- The parsed config document; a missing key raises KeyError on lookup. -/
structure ConfigDoc where
  scriptContent : Option Script
  databaseType : Option String
  dbInstance : Option InstanceDoc
  databaseName : Option String
deriving Repr

/-- Python's `a or b` on an optional string: `b` when `a` is absent or empty. -/
def orElseStr (a : Option String) (b : String) : String :=
  match a with
  | some s => if s = "" then b else s
  | none => b

/-- Connection parameters for the postgresql branch (source lines 461-473):
defaults, then the credentialsEnvPrefix override sourcing user/password from
the environment. -/
def mkPgConnParams (env : String → Option String) (inst : InstanceDoc)
    (databaseName : String) : ConnParams :=
  let base : ConnParams :=
    { host := inst.host.getD "localhost"
      port := inst.port.getD 5432
      database := databaseName
      user := orElseStr inst.user (inst.credentialsEnvPrefix.getD "postgres")
      password := inst.password.getD "" }
  match inst.credentialsEnvPrefix with
  | some pfx =>
      { base with
        user := (env (pfx ++ "_USER")).getD base.user
        password := (env (pfx ++ "_PASSWORD")).getD "" }
  | none => base

/-- The URI for the mongodb branch (source lines 478-485). -/
def mkMongoUri (env : String → Option String) (inst : InstanceDoc) : String :=
  let uri0 := orElseStr inst.uri (inst.connectionString.getD "mongodb://localhost:27017")
  match inst.credentialsEnvPrefix with
  | some pfx =>
      match env (pfx ++ "_CONNECTION_STRING") with
      | some envUri => if envUri = "" then uri0 else envUri
      | none => uri0
  | none => uri0

/-- External nondeterminism of one run: the process environment and the
constructors' connection outcomes (`none` = the wrapper constructor
returns, `some e` = it raises `e`; a failure inside the constructor leaves
`db_wrapper` unassigned). -/
structure World where
  env : String → Option String
  pgConnectErr : ConnParams → Option PyExc
  mongoConnectErr : String → String → Option PyExc

-- =========================================================================
-- Script executor (execute_script) and IPC handler (main)
-- =========================================================================

/-- The `error` object of the result document. -/
structure ErrInfo where
  ty : String
  msg : String
deriving Repr, DecidableEq

/-- The result document of `execute_script` (`result` is always the JSON
null on success and absent on failure, so it is not carried). -/
structure ExecResult where
  success : Bool
  output : List OutputEvent
  error : Option ErrInfo
deriving Repr, DecidableEq

/-- The active database wrapper's mutable fields (the trace is shared). -/
inductive DbW where
  | pgW (readonly : Bool) (query_count : Nat)
  | mongoW (op_count : Nat)
deriving Repr, DecidableEq

/-- Run the script body's interactions in order; stops at the first
uncaught exception.  `print` goes through SandboxPrint (info event, no
extras), `import` through `restricted_import`, `db.query` through the
active wrapper (an `AttributeError` when the session is a Mongo one). -/
def runActs : List SAct → List TraceEntry → DbW →
    List TraceEntry × DbW × Option PyExc
  | [], tr, dbw => (tr, dbw, none)
  | a :: rest, tr, dbw =>
    match a with
    | .print args => runActs rest (emit tr "info" (String.intercalate " " args) []) dbw
    | .importName name =>
      match restricted_import name with
      | .ok _ => runActs rest tr dbw
      | .error emsg => (tr, dbw, some ⟨"ImportError", emsg⟩)
    | .raiseExc ty msg => (tr, dbw, some ⟨ty, msg⟩)
    | .dbQuery sql params resp =>
      match dbw with
      | .pgW ro qc =>
        match PostgresWrapper.query ⟨tr, ro, qc⟩ sql params resp with
        | (w2, .ok _) => runActs rest w2.trace (.pgW ro w2.query_count)
        | (w2, .error e) => (w2.trace, .pgW ro w2.query_count, some e)
      | .mongoW _ =>
        (tr, dbw, some ⟨"AttributeError", "'MongoWrapper' object has no attribute 'query'"⟩)

/-- The script phase of `execute_script` once a wrapper exists (source
lines 492-532): compile + exec inside the try, the SyntaxError / generic
except branches, the success return, and the finally clause, which here
always finds `db_wrapper` set and closes it. -/
def runScriptPhase (tr : List TraceEntry) (dbw : DbW) (script : Script) :
    ExecResult × List TraceEntry :=
  match script with
  | .invalid lineno emsg =>
    let tr2 := emit tr "error" ("Syntax error at line " ++ toString lineno ++ ": " ++ emsg) []
    ({ success := false, output := eventsOf tr2,
       error := some ⟨"SyntaxError", "Line " ++ toString lineno ++ ": " ++ emsg⟩ },
     tr2 ++ [.sessionClose])
  | .valid body =>
    match runActs body (tr ++ [.scriptStart]) dbw with
    | (tr2, _, none) =>
      let tr3 := emit tr2 "info" "Script completed successfully" []
      ({ success := true, output := eventsOf tr3, error := none },
       tr3 ++ [.sessionClose])
    | (tr2, _, some e) =>
      let tr3 := emit tr2 "error" ("Script failed: " ++ e.msg) []
      ({ success := false, output := eventsOf tr3, error := some ⟨e.ty, e.msg⟩ },
       tr3 ++ [.sessionClose])

/-- A failure outcome reached while `db_wrapper` is still None: the generic
except branch runs, the finally clause finds nothing to close. -/
def failNoWrapper (tr : List TraceEntry) (e : PyExc) : ExecResult × List TraceEntry :=
  let tr2 := emit tr "error" ("Script failed: " ++ e.msg) []
  ({ success := false, output := eventsOf tr2, error := some ⟨e.ty, e.msg⟩ }, tr2)

/-- Python's `str(KeyError(k))`: the repr of the missing key. -/
def pyKeyErrorStr (k : String) : String := "'" ++ k ++ "'"

/-- The start-of-run info event's extras. -/
def startInfoExtras (inst : InstanceDoc) (databaseName databaseType : String) :
    List (String × ExtraVal) :=
  [("database", .s databaseName), ("instance", .s (inst.id.getD "unknown")),
   ("databaseType", .s databaseType)]

/-- `execute_script(config)`: returns the result document and the full
execution trace.  Config key lookups raise KeyError when absent; the
postgresql/mongodb branches attempt a connection whose outcome the world
decides; any other database type raises ValueError before any connection
attempt; the finally clause closes the wrapper exactly when one was
constructed. -/
def execute_script (w : World) (config : ConfigDoc) : ExecResult × List TraceEntry :=
  match config.scriptContent with
  | none => failNoWrapper [] ⟨"KeyError", pyKeyErrorStr "scriptContent"⟩
  | some script =>
  match config.databaseType with
  | none => failNoWrapper [] ⟨"KeyError", pyKeyErrorStr "databaseType"⟩
  | some databaseType =>
  match config.dbInstance with
  | none => failNoWrapper [] ⟨"KeyError", pyKeyErrorStr "instance"⟩
  | some inst =>
  match config.databaseName with
  | none => failNoWrapper [] ⟨"KeyError", pyKeyErrorStr "databaseName"⟩
  | some databaseName =>
  let tr := emit [] "info" "Starting script execution..."
    (startInfoExtras inst databaseName databaseType)
  if databaseType = "postgresql" then
    let params := mkPgConnParams w.env inst databaseName
    let tr2 := tr ++ [.pgConnectAttempt params]
    match w.pgConnectErr params with
    | some e => failNoWrapper tr2 e
    | none => runScriptPhase (tr2 ++ [.sessionOpen]) (.pgW false 0) script
  else if databaseType = "mongodb" then
    let uri := mkMongoUri w.env inst
    let tr2 := tr ++ [.mongoConnectAttempt uri databaseName]
    match w.mongoConnectErr uri databaseName with
    | some e => failNoWrapper tr2 e
    | none => runScriptPhase (tr2 ++ [.sessionOpen]) (.mongoW 0) script
  else
    failNoWrapper tr ⟨"ValueError", "Unsupported database type: " ++ databaseType⟩

/-- What the worker read on stdin: a JSON parse failure or a parsed config. -/
inductive StdinDoc where
  | malformed (emsg : String)
  | parsed (c : ConfigDoc)

/-- What `main()` produces: the single result document written to stdout,
the exit status, and the execution trace. -/
structure MainOut where
  resultDoc : ExecResult
  exitCode : Nat
  trace : List TraceEntry

/-- `main()`: parse stdin; on JSON failure emit the ConfigError document
with exit 1; otherwise run `execute_script` and exit 0 on success, 1 on
failure. -/
def main (w : World) (inp : StdinDoc) : MainOut :=
  match inp with
  | .malformed emsg =>
    { resultDoc := { success := false, output := [],
                     error := some ⟨"ConfigError", "Invalid JSON config: " ++ emsg⟩ },
      exitCode := 1, trace := [] }
  | .parsed c =>
    let (r, tr) := execute_script w c
    { resultDoc := r, exitCode := if r.success then 0 else 1, trace := tr }

-- =========================================================================
-- Concrete fixtures for closed statements
-- =========================================================================

/-- A fixed world for concrete runs: empty environment, every connection
constructor succeeds. -/
def okWorld : World := ⟨fun _ => none, fun _ => none, fun _ _ => none⟩

/-- A fixed instance document for concrete runs. -/
def sampleInst : InstanceDoc :=
  ⟨some "i1", some "h", some 5432, some "u", some "pw", none, none, none⟩

-- =========================================================================
-- Helper lemmas
-- =========================================================================

theorem closeCalls_append (a b : List TraceEntry) :
    closeCalls (a ++ b) = closeCalls a + closeCalls b := by
  simp [closeCalls, List.countP_append]

theorem opens_append (a b : List TraceEntry) :
    opens (a ++ b) = opens a + opens b := by
  simp [opens, List.countP_append]

theorem eventsOf_append (a b : List TraceEntry) :
    eventsOf (a ++ b) = eventsOf a ++ eventsOf b := by
  simp [eventsOf, List.filterMap_append]

/-- On failure (driver exception or the IndexError from an all-whitespace
statement) `query` appends execute/rollback/error-event, bumps the counter
and re-raises. -/
theorem query_fail_eq (w : PgW) (sql : String) (p : Option (List String)) (exc : PyExc) :
    PostgresWrapper.query w sql p (.fail exc) =
      (⟨w.trace ++ [.pgExec sql, .pgRollback, .ev (pgErrEvent (w.query_count + 1) exc.msg)],
        w.readonly, w.query_count + 1⟩, .error exc) := by
  simp [PostgresWrapper.query, List.append_assoc]

/-- On a successful SELECT-classified call `query` appends
execute/query-event and returns the rows. -/
theorem query_select_eq (w : PgW) (sql : String) (p : Option (List String)) (r : PgOk)
    (tok : String) (htok : firstToken sql = some tok) (hsel : tok.toUpper = "SELECT") :
    PostgresWrapper.query w sql p (.ok r) =
      (⟨w.trace ++ [.pgExec sql,
          .ev (pgSelectEvent (w.query_count + 1) tok.toUpper sql r.rows.length r.durMs)],
        w.readonly, w.query_count + 1⟩,
       .ok { rows := r.rows, rowCount := (r.rows.length : Int), rowsAffected := none,
             fields := some (r.fields.getD []) }) := by
  simp [PostgresWrapper.query, htok, hsel, List.append_assoc]

/-- On a successful mutating call `query` commits and appends
execute/commit/query-event. -/
theorem query_mut_eq (w : PgW) (sql : String) (p : Option (List String)) (r : PgOk)
    (tok : String) (htok : firstToken sql = some tok) (hsel : tok.toUpper ≠ "SELECT") :
    PostgresWrapper.query w sql p (.ok r) =
      (⟨w.trace ++ [.pgExec sql, .pgCommit,
          .ev (pgMutEvent (w.query_count + 1) tok.toUpper sql r.rowcount r.durMs)],
        w.readonly, w.query_count + 1⟩,
       .ok { rows := [], rowCount := r.rowcount, rowsAffected := some r.rowcount,
             fields := none }) := by
  simp [PostgresWrapper.query, htok, hsel, List.append_assoc]

/-- Every call bumps the counter by exactly one. -/
theorem query_count_succ (w : PgW) (sql : String) (p : Option (List String)) (resp : PgResp) :
    (PostgresWrapper.query w sql p resp).1.query_count = w.query_count + 1 := by
  rcases resp with r | exc
  · rcases htok : firstToken sql with _ | tok
    · simp [PostgresWrapper.query, htok]
    · by_cases hsel : tok.toUpper = "SELECT"
      · rw [query_select_eq w sql p r tok htok hsel]
      · rw [query_mut_eq w sql p r tok htok hsel]
  · rw [query_fail_eq]

/-- A successful call with a classifiable statement appends exactly one
event: a query-type event tagged with the new counter value and the
elapsed milliseconds. -/
theorem query_ok_event (w : PgW) (sql : String) (p : Option (List String)) (r : PgOk)
    (tok : String) (htok : firstToken sql = some tok) :
    ∃ ev : OutputEvent,
      eventsOf (PostgresWrapper.query w sql p (.ok r)).1.trace =
        eventsOf w.trace ++ [ev] ∧
      ev.ty = "query" ∧
      ("queryNumber", .n (w.query_count + 1)) ∈ ev.extras ∧
      ("duration", .s (toString r.durMs ++ "ms")) ∈ ev.extras := by
  by_cases hsel : tok.toUpper = "SELECT"
  · refine ⟨pgSelectEvent (w.query_count + 1) tok.toUpper sql r.rows.length r.durMs, ?_, ?_, ?_, ?_⟩ <;>
      simp [query_select_eq w sql p r tok htok hsel, eventsOf_append, eventsOf,
        pgSelectEvent]
  · refine ⟨pgMutEvent (w.query_count + 1) tok.toUpper sql r.rowcount r.durMs, ?_, ?_, ?_, ?_⟩ <;>
      simp [query_mut_eq w sql p r tok htok hsel, eventsOf_append, eventsOf,
        pgMutEvent]

-- =========================================================================
-- Claim C5 — Postgres failure path
-- =========================================================================

/-- Claim C5 (counterexample): a failing Postgres call appends an error
event tagged with the sequence number and the error text only — it carries
no statement text at all (truncated or otherwise), so the claim as stated
is false on the code.  The statement text appears only on success-path
query events. -/
theorem C5_counterexample :
    (PostgresWrapper.query ⟨[], false, 0⟩ "UPDATE t SET x = 1" none
        (.fail ⟨"ProgrammingError", "boom"⟩)).1.trace =
      [.pgExec "UPDATE t SET x = 1", .pgRollback, .ev (pgErrEvent 1 "boom")] ∧
    (pgErrEvent 1 "boom").extras.map Prod.fst = ["queryNumber", "error"] ∧
    (pgErrEvent 1 "boom").extras.map Prod.fst ≠
      ["queryNumber", "error", "sql"] := by
  refine ⟨?_, by decide, by decide⟩
  rw [query_fail_eq]
  rfl

/-- Claim C5 (amended): on any failing Postgres call the transaction is
rolled back, an error-type OutputEvent tagged with the session's query
sequence number and the error message (but no statement text) is appended,
the driver's original exception is re-raised, and the session is not
closed (it stays open for further calls). -/
theorem C5_query_failure (w : PgW) (sql : String) (p : Option (List String)) (exc : PyExc) :
    PostgresWrapper.query w sql p (.fail exc) =
      (⟨w.trace ++ [.pgExec sql, .pgRollback, .ev (pgErrEvent (w.query_count + 1) exc.msg)],
        w.readonly, w.query_count + 1⟩, .error exc) ∧
    (pgErrEvent (w.query_count + 1) exc.msg).ty = "error" ∧
    ("queryNumber", .n (w.query_count + 1)) ∈ (pgErrEvent (w.query_count + 1) exc.msg).extras ∧
    (pgErrEvent (w.query_count + 1) exc.msg).extras.map Prod.fst = ["queryNumber", "error"] ∧
    rollbacks (PostgresWrapper.query w sql p (.fail exc)).1.trace = rollbacks w.trace + 1 ∧
    closeCalls (PostgresWrapper.query w sql p (.fail exc)).1.trace = closeCalls w.trace := by
  refine ⟨query_fail_eq w sql p exc, rfl, by simp [pgErrEvent], by simp [pgErrEvent], ?_, ?_⟩ <;>
    rw [query_fail_eq] <;>
    simp [rollbacks, closeCalls, List.countP_append, List.countP_cons]

-- =========================================================================
-- Claim C7 — Mongo deleteMany with an empty/absent filter
-- =========================================================================

/-- Claim C7 (counterexample): an empty-filter deleteMany appends exactly
ONE output event — the high-risk warn event is itself the operation's only
audit record — so no separate "delete's own audit event" follows it, and
the claim's ordering statement is false on the code. -/
theorem C7_counterexample :
    (MongoCollectionWrapper.deleteMany ⟨[], 0⟩ "users" none 5).1.trace =
      [.ev (deleteManyWarnEvent 1 "users"), .mongoDelete "users" none] ∧
    (eventsOf (MongoCollectionWrapper.deleteMany ⟨[], 0⟩ "users" none 5).1.trace).length
      = 1 := by
  constructor <;> rfl

/-- Claim C7 (amended): a Mongo deleteMany with an empty or absent filter
appends one warn-severity event carrying the high-risk marker before the
delete executes; that warning is the operation's sole audit event (no
second event follows), it only logs, and the delete still executes. -/
theorem C7_deleteMany_empty_filter (st : MongoW) (coll : String)
    (filt : Option (List (String × String))) (deleted : Nat)
    (h : filt = none ∨ filt = some []) :
    MongoCollectionWrapper.deleteMany st coll filt deleted =
      ({ trace := st.trace ++ [.ev (deleteManyWarnEvent (st.op_count + 1) coll),
           .mongoDelete coll filt], op_count := st.op_count + 1 }, deleted) ∧
    (deleteManyWarnEvent (st.op_count + 1) coll).ty = "warn" ∧
    ("risk", .s "critical") ∈ (deleteManyWarnEvent (st.op_count + 1) coll).extras ∧
    eventsOf (MongoCollectionWrapper.deleteMany st coll filt deleted).1.trace =
      eventsOf st.trace ++ [deleteManyWarnEvent (st.op_count + 1) coll] := by
  rcases h with h | h <;> subst h <;>
    refine ⟨?_, rfl, by simp [deleteManyWarnEvent, deleteAllDetails], ?_⟩ <;>
    simp [MongoCollectionWrapper.deleteMany, MongoWrapper.logOp, emit,
      deleteManyWarnEvent, eventsOf_append, eventsOf, List.append_assoc]

/-- Witness for C7 at a concrete input. -/
theorem C7_witness :
    MongoCollectionWrapper.deleteMany ⟨[], 0⟩ "logs" none 3 =
      ({ trace := [.ev (deleteManyWarnEvent 1 "logs"), .mongoDelete "logs" none],
         op_count := 1 }, 3) :=
  (C7_deleteMany_empty_filter ⟨[], 0⟩ "logs" none 3 (Or.inl rfl)).1

-- =========================================================================
-- Claim C8 — Postgres per-call counter and audit event
-- =========================================================================

/-- Claim C8 (counterexample): a failing Postgres call appends an
error-type event, not a query-type one, and records no elapsed time — so
the claim's "whether it succeeds or fails ... appends a query-type
OutputEvent recording the elapsed time" is false on the code. -/
theorem C8_counterexample :
    eventsOf (PostgresWrapper.query ⟨[], false, 0⟩ "SELECT * FROM missing_t" none
        (.fail ⟨"UndefinedTable", "oops"⟩)).1.trace = [pgErrEvent 1 "oops"] ∧
    (pgErrEvent 1 "oops").ty = "error" ∧
    (pgErrEvent 1 "oops").ty ≠ "query" ∧
    (pgErrEvent 1 "oops").extras.lookup "duration" = none := by
  refine ⟨?_, rfl, by decide, by decide⟩
  rw [query_fail_eq]
  rfl

/-- Claim C8 (amended): every Postgres call increments the per-session
counter by exactly 1 and appends exactly one event tagged with the new
counter value; a successful (classifiable) call appends a query-type event
recording the elapsed milliseconds, while a failing call appends an
error-type event with no elapsed time; hence two sequential successful
statements in one fresh session produce query-type events with consecutive
sequence numbers 1 and 2. -/
theorem C8_query_counter_audit (w : PgW) (sql : String) (p : Option (List String))
    (resp : PgResp) :
    (PostgresWrapper.query w sql p resp).1.query_count = w.query_count + 1 ∧
    (∀ r : PgOk, ∀ tok : String, resp = .ok r → firstToken sql = some tok →
      ∃ ev : OutputEvent,
        eventsOf (PostgresWrapper.query w sql p resp).1.trace = eventsOf w.trace ++ [ev] ∧
        ev.ty = "query" ∧
        ("queryNumber", .n (w.query_count + 1)) ∈ ev.extras ∧
        ("duration", .s (toString r.durMs ++ "ms")) ∈ ev.extras) ∧
    (∀ exc : PyExc, resp = .fail exc →
      eventsOf (PostgresWrapper.query w sql p resp).1.trace =
        eventsOf w.trace ++ [pgErrEvent (w.query_count + 1) exc.msg] ∧
      (pgErrEvent (w.query_count + 1) exc.msg).ty = "error" ∧
      ("queryNumber", .n (w.query_count + 1)) ∈ (pgErrEvent (w.query_count + 1) exc.msg).extras ∧
      (pgErrEvent (w.query_count + 1) exc.msg).extras.lookup "duration" = none) ∧
    (∀ (tr : List TraceEntry) (ro : Bool) (sql1 sql2 : String)
        (p1 p2 : Option (List String)) (r1 r2 : PgOk) (tok1 tok2 : String),
      firstToken sql1 = some tok1 → firstToken sql2 = some tok2 →
      ∃ e1 e2 : OutputEvent,
        eventsOf (PostgresWrapper.query
            (PostgresWrapper.query ⟨tr, ro, 0⟩ sql1 p1 (.ok r1)).1 sql2 p2 (.ok r2)).1.trace =
          eventsOf tr ++ [e1, e2] ∧
        e1.ty = "query" ∧ e2.ty = "query" ∧
        ("queryNumber", .n 1) ∈ e1.extras ∧ ("queryNumber", .n 2) ∈ e2.extras) := by
  refine ⟨query_count_succ w sql p resp, ?_, ?_, ?_⟩
  · rintro r tok rfl htok
    exact query_ok_event w sql p r tok htok
  · rintro exc rfl
    refine ⟨?_, rfl, by simp [pgErrEvent], by rfl⟩
    rw [query_fail_eq]
    simp [eventsOf_append, eventsOf]
  · intro tr ro sql1 sql2 p1 p2 r1 r2 tok1 tok2 htok1 htok2
    obtain ⟨e1, he1, hty1, hq1, _⟩ := query_ok_event ⟨tr, ro, 0⟩ sql1 p1 r1 tok1 htok1
    obtain ⟨e2, he2, hty2, hq2, _⟩ :=
      query_ok_event (PostgresWrapper.query ⟨tr, ro, 0⟩ sql1 p1 (.ok r1)).1 sql2 p2 r2 tok2 htok2
    have hc : (PostgresWrapper.query ⟨tr, ro, 0⟩ sql1 p1 (.ok r1)).1.query_count = 1 :=
      query_count_succ ⟨tr, ro, 0⟩ sql1 p1 (.ok r1)
    rw [hc] at hq2
    refine ⟨e1, e2, ?_, hty1, hty2, hq1, hq2⟩
    rw [he2, he1]
    simp

-- =========================================================================
-- Claim C9 — Mongo cursor builder operations
-- =========================================================================

/-- Claim C9 (counterexample): applying `limit 5` to a cursor changes that
very cursor's query specification in place (the handle returned is the
same object), so the original cursor's specification does NOT stay
unchanged as the claim states. -/
theorem C9_counterexample :
    (MongoFindCursor.limit (fun _ => ⟨none, none, none⟩) 0 5).1 0 =
      ⟨some 5, none, none⟩ ∧
    (MongoFindCursor.limit (fun _ => ⟨none, none, none⟩) 0 5).1 0 ≠
      (⟨none, none, none⟩ : CursorSpec) ∧
    (MongoFindCursor.limit (fun _ => ⟨none, none, none⟩) 0 5).2 = 0 := by
  refine ⟨by rfl, ?_, rfl⟩
  intro h
  simpa [MongoFindCursor.limit, CursorStore.update] using congrArg CursorSpec.limitN h

/-- Claim C9 (amended): `limit`, `skip` and `sort` are chainable — each
returns the very same cursor handle — but they update that handle's query
specification in place: after the call the cursor's specification embodies
the extension, the pre-call specification is not retained anywhere, and no
other cursor is affected. -/
theorem C9_cursor_builders_mutate (σ : CursorStore) (cid : Nat) (n m : Int)
    (key : String) (direction : Option Int) :
    ((MongoFindCursor.limit σ cid n).2 = cid ∧
      (MongoFindCursor.limit σ cid n).1 cid = { σ cid with limitN := some n } ∧
      ∀ j, j ≠ cid → (MongoFindCursor.limit σ cid n).1 j = σ j) ∧
    ((MongoFindCursor.skip σ cid m).2 = cid ∧
      (MongoFindCursor.skip σ cid m).1 cid = { σ cid with skipN := some m } ∧
      ∀ j, j ≠ cid → (MongoFindCursor.skip σ cid m).1 j = σ j) ∧
    ((MongoFindCursor.sort σ cid key direction).2 = cid ∧
      (MongoFindCursor.sort σ cid key direction).1 cid =
        { σ cid with sortSpec := some (key, direction) } ∧
      ∀ j, j ≠ cid → (MongoFindCursor.sort σ cid key direction).1 j = σ j) := by
  refine ⟨⟨rfl, ?_, ?_⟩, ⟨rfl, ?_, ?_⟩, ⟨rfl, ?_, ?_⟩⟩ <;>
    simp [MongoFindCursor.limit, MongoFindCursor.skip, MongoFindCursor.sort,
      CursorStore.update] <;>
    intro j hj <;> simp [hj]

-- =========================================================================
-- Claim C10 — env-prefixed Postgres credentials
-- =========================================================================

/-- Claim C10 (confirmed): with credentialsEnvPrefix present, the password
comes exclusively from the prefixed _PASSWORD environment variable
(defaulting to the empty string; the instance password field is
discarded), and the user falls back to the instance user — or, when that
is absent or empty, the prefix string itself — exactly when the prefixed
_USER variable is unset. -/
theorem C10_env_credentials (env : String → Option String) (inst : InstanceDoc)
    (databaseName : String) (pfx : String)
    (h : inst.credentialsEnvPrefix = some pfx) :
    (mkPgConnParams env inst databaseName).password =
      (env (pfx ++ "_PASSWORD")).getD "" ∧
    (∀ pw : Option String,
      (mkPgConnParams env { inst with password := pw } databaseName).password =
        (env (pfx ++ "_PASSWORD")).getD "") ∧
    (env (pfx ++ "_USER") = none →
      (mkPgConnParams env inst databaseName).user = orElseStr inst.user pfx) ∧
    (∀ u : String, env (pfx ++ "_USER") = some u →
      (mkPgConnParams env inst databaseName).user = u) := by
  refine ⟨by simp [mkPgConnParams, h], fun pw => by simp [mkPgConnParams, h], ?_, ?_⟩
  · intro hu
    simp [mkPgConnParams, h, hu]
  · intro u hu
    simp [mkPgConnParams, h, hu]

/-- Witness for C10 at a concrete input. -/
theorem C10_witness :
    (mkPgConnParams
        (fun k => if k = "APP_PASSWORD" then some "sekret" else none)
        ⟨some "i", some "h", some 5432, some "alice", some "ignored", some "APP",
          none, none⟩ "db1").password =
      (Option.getD (some "sekret") "") :=
  (C10_env_credentials
    (fun k => if k = "APP_PASSWORD" then some "sekret" else none)
    ⟨some "i", some "h", some 5432, some "alice", some "ignored", some "APP", none, none⟩
    "db1" "APP" rfl).1

-- =========================================================================
-- Claim C2 — non-whitelisted imports
-- =========================================================================

/-- Claim C2 (counterexample): a script importing `os` fails, but the final
result's error kind is the Python exception's own name, "ImportError" —
not "ImportRejected" as the claim states. -/
theorem C2_counterexample :
    (execute_script okWorld ⟨some (.valid [.importName "os"]), some "postgresql",
        some sampleInst, some "db1"⟩).1.success = false ∧
    ((execute_script okWorld ⟨some (.valid [.importName "os"]), some "postgresql",
        some sampleInst, some "db1"⟩).1.error).map ErrInfo.ty = some "ImportError" ∧
    ((execute_script okWorld ⟨some (.valid [.importName "os"]), some "postgresql",
        some sampleInst, some "db1"⟩).1.error).map ErrInfo.ty ≠ some "ImportRejected" := by
  refine ⟨by decide, by decide, by decide⟩

/-- Claim C2 (amended): a script requesting a module whose base name is
outside the whitelist fails; the final result's error kind is
"ImportError" (the rejection raised by restricted_import), its message
names the requested module, and the session is still closed exactly
once. -/
theorem C2_import_outside_whitelist (w : World) (inst : InstanceDoc)
    (databaseName nm : String)
    (hconn : w.pgConnectErr (mkPgConnParams w.env inst databaseName) = none)
    (hnm : baseModule nm ∉ ALLOWED_MODULES) :
    restricted_import nm = .error (importRejectedMsg nm) ∧
    (execute_script w ⟨some (.valid [.importName nm]), some "postgresql",
        some inst, some databaseName⟩).1.success = false ∧
    (execute_script w ⟨some (.valid [.importName nm]), some "postgresql",
        some inst, some databaseName⟩).1.error =
      some ⟨"ImportError", importRejectedMsg nm⟩ ∧
    closeCalls (execute_script w ⟨some (.valid [.importName nm]), some "postgresql",
        some inst, some databaseName⟩).2 = 1 := by
  have hri : restricted_import nm = .error (importRejectedMsg nm) := by
    simp [restricted_import, hnm]
  refine ⟨hri, ?_, ?_, ?_⟩ <;>
    simp [execute_script, hconn, runScriptPhase, runActs, hri, failNoWrapper, emit,
      closeCalls, List.countP_append, List.countP_cons]

/-- Witness for C2 at a concrete input. -/
theorem C2_witness :
    restricted_import "os" = .error (importRejectedMsg "os") ∧
    (execute_script okWorld ⟨some (.valid [.importName "os"]), some "postgresql",
        some sampleInst, some "db1"⟩).1.success = false ∧
    (execute_script okWorld ⟨some (.valid [.importName "os"]), some "postgresql",
        some sampleInst, some "db1"⟩).1.error =
      some ⟨"ImportError", importRejectedMsg "os"⟩ ∧
    closeCalls (execute_script okWorld ⟨some (.valid [.importName "os"]), some "postgresql",
        some sampleInst, some "db1"⟩).2 = 1 :=
  C2_import_outside_whitelist okWorld sampleInst "db1" "os" rfl (by decide)

-- =========================================================================
-- Claim C3 — malformed or incomplete config
-- =========================================================================

/-- Claim C3 (counterexample): a config that is valid JSON but misses the
required fields yields error kind "KeyError" — not "ConfigError" as the
claim states — though it does exit 1 with no connection attempt and no
script run. -/
theorem C3_counterexample :
    ((main okWorld (.parsed ⟨none, none, none, none⟩)).resultDoc.error).map ErrInfo.ty =
      some "KeyError" ∧
    ((main okWorld (.parsed ⟨none, none, none, none⟩)).resultDoc.error).map ErrInfo.ty ≠
      some "ConfigError" ∧
    (main okWorld (.parsed ⟨none, none, none, none⟩)).exitCode = 1 ∧
    connectAttempts (main okWorld (.parsed ⟨none, none, none, none⟩)).trace = 0 ∧
    scriptStarts (main okWorld (.parsed ⟨none, none, none, none⟩)).trace = 0 := by
  refine ⟨by decide, by decide, by decide, by decide, by decide⟩

/-- Claim C3 (amended): malformed input JSON yields success=false with
error kind "ConfigError", exit status 1, zero connection attempts and no
script run; a config missing a required field also exits 1 with zero
connection attempts and no script run, but its error kind is "KeyError"
(the failed lookup), not "ConfigError". -/
theorem C3_config_failures (w : World) (emsg : String) (c : ConfigDoc)
    (hmiss : c.scriptContent = none ∨ c.databaseType = none ∨ c.dbInstance = none ∨
      c.databaseName = none) :
    ((main w (.malformed emsg)).resultDoc.success = false ∧
      (main w (.malformed emsg)).resultDoc.error =
        some ⟨"ConfigError", "Invalid JSON config: " ++ emsg⟩ ∧
      (main w (.malformed emsg)).exitCode = 1 ∧
      connectAttempts (main w (.malformed emsg)).trace = 0 ∧
      scriptStarts (main w (.malformed emsg)).trace = 0) ∧
    ((main w (.parsed c)).resultDoc.success = false ∧
      ((main w (.parsed c)).resultDoc.error).map ErrInfo.ty = some "KeyError" ∧
      (main w (.parsed c)).exitCode = 1 ∧
      connectAttempts (main w (.parsed c)).trace = 0 ∧
      scriptStarts (main w (.parsed c)).trace = 0) := by
  obtain ⟨sc, dt, di, dn⟩ := c
  refine ⟨⟨rfl, rfl, rfl, rfl, rfl⟩, ?_⟩
  rcases sc with _ | s <;> rcases dt with _ | t <;> rcases di with _ | i <;>
    rcases dn with _ | d <;>
    simp_all [main, execute_script, failNoWrapper, emit, connectAttempts, scriptStarts,
      List.countP_append, List.countP_cons]

/-- Witness for C3 at a concrete input. -/
theorem C3_witness :
    (main okWorld (.malformed "bad")).resultDoc.error =
      some ⟨"ConfigError", "Invalid JSON config: " ++ "bad"⟩ ∧
    ((main okWorld (.parsed ⟨some (.valid []), none, none, none⟩)).resultDoc.error).map
      ErrInfo.ty = some "KeyError" :=
  ⟨(C3_config_failures okWorld "bad" ⟨some (.valid []), none, none, none⟩
      (Or.inr (Or.inl rfl))).1.2.1,
   (C3_config_failures okWorld "bad" ⟨some (.valid []), none, none, none⟩
      (Or.inr (Or.inl rfl))).2.2.1⟩

-- =========================================================================
-- Claim C4 — unsupported database type
-- =========================================================================

/-- Claim C4 (counterexample): a config with databaseType "mysql" fails
with error kind "ValueError" (the raised exception's own type), not
"UnsupportedDatabaseType" as the claim states; no connection is attempted
and no session is opened. -/
theorem C4_counterexample :
    (execute_script okWorld ⟨some (.valid []), some "mysql", some sampleInst,
        some "db1"⟩).1.error = some ⟨"ValueError", "Unsupported database type: mysql"⟩ ∧
    ((execute_script okWorld ⟨some (.valid []), some "mysql", some sampleInst,
        some "db1"⟩).1.error).map ErrInfo.ty ≠ some "UnsupportedDatabaseType" ∧
    connectAttempts (execute_script okWorld ⟨some (.valid []), some "mysql",
        some sampleInst, some "db1"⟩).2 = 0 ∧
    opens (execute_script okWorld ⟨some (.valid []), some "mysql", some sampleInst,
        some "db1"⟩).2 = 0 := by
  refine ⟨by decide, by decide, by decide, by decide⟩

/-- Claim C4 (amended): a config whose databaseType is neither
"postgresql" nor "mongodb" fails with error kind "ValueError" and message
naming the unsupported type; no connection attempt is made, no session is
opened and none is closed. -/
theorem C4_unsupported_db_type (w : World) (script : Script) (inst : InstanceDoc)
    (databaseName dbType : String)
    (h1 : dbType ≠ "postgresql") (h2 : dbType ≠ "mongodb") :
    (execute_script w ⟨some script, some dbType, some inst, some databaseName⟩).1.success
      = false ∧
    (execute_script w ⟨some script, some dbType, some inst, some databaseName⟩).1.error =
      some ⟨"ValueError", "Unsupported database type: " ++ dbType⟩ ∧
    connectAttempts
      (execute_script w ⟨some script, some dbType, some inst, some databaseName⟩).2 = 0 ∧
    opens (execute_script w ⟨some script, some dbType, some inst, some databaseName⟩).2
      = 0 ∧
    closeCalls
      (execute_script w ⟨some script, some dbType, some inst, some databaseName⟩).2
      = 0 := by
  refine ⟨?_, ?_, ?_, ?_, ?_⟩ <;>
    simp [execute_script, h1, h2, failNoWrapper, emit, connectAttempts, opens,
      closeCalls, List.countP_append, List.countP_cons]

/-- Witness for C4 at a concrete input. -/
theorem C4_witness :
    (execute_script okWorld ⟨some (.valid []), some "sqlserver", some sampleInst,
        some "db9"⟩).1.error =
      some ⟨"ValueError", "Unsupported database type: " ++ "sqlserver"⟩ :=
  (C4_unsupported_db_type okWorld (.valid []) sampleInst "db9" "sqlserver"
    (by decide) (by decide)).2.1

-- =========================================================================
-- Claim C6 — a script that only prints "x"
-- =========================================================================

/-- Claim C6 (counterexample): the run that only prints "x" succeeds, but
its output holds three info events (the recorder's start and completion
messages bracket the print), not exactly one as the claim states. -/
theorem C6_counterexample :
    (execute_script okWorld ⟨some (.valid [.print ["x"]]), some "postgresql",
        some sampleInst, some "db1"⟩).1.success = true ∧
    ((execute_script okWorld ⟨some (.valid [.print ["x"]]), some "postgresql",
        some sampleInst, some "db1"⟩).1.output.countP fun e => e.ty == "info") = 3 ∧
    ¬ (((execute_script okWorld ⟨some (.valid [.print ["x"]]), some "postgresql",
        some sampleInst, some "db1"⟩).1.output.countP fun e => e.ty == "info") = 1) := by
  refine ⟨by decide, by decide, by decide⟩

/-- Claim C6 (amended): for a script that only prints "x" the result has
success=true and its output contains exactly one info event with message
"x" — but that event sits between the recorder's start and completion info
events, for three info events in total. -/
theorem C6_print_x (w : World) (inst : InstanceDoc) (databaseName : String)
    (hconn : w.pgConnectErr (mkPgConnParams w.env inst databaseName) = none) :
    (execute_script w ⟨some (.valid [.print ["x"]]), some "postgresql", some inst,
        some databaseName⟩).1.success = true ∧
    (execute_script w ⟨some (.valid [.print ["x"]]), some "postgresql", some inst,
        some databaseName⟩).1.output =
      [⟨"info", "Starting script execution...", startInfoExtras inst databaseName "postgresql"⟩,
       ⟨"info", "x", []⟩, ⟨"info", "Script completed successfully", []⟩] ∧
    ((execute_script w ⟨some (.valid [.print ["x"]]), some "postgresql", some inst,
        some databaseName⟩).1.output.countP fun e => e.ty == "info" && e.message == "x")
      = 1 := by
  have hx : String.intercalate " " ["x"] = "x" := rfl
  refine ⟨?_, ?_, ?_⟩ <;>
    simp [execute_script, hconn, runScriptPhase, runActs, emit, eventsOf, hx,
      List.countP_append, List.countP_cons]

/-- Witness for C6 at a concrete input. -/
theorem C6_witness :
    (execute_script okWorld ⟨some (.valid [.print ["x"]]), some "postgresql",
        some sampleInst, some "db1"⟩).1.success = true :=
  (C6_print_x okWorld sampleInst "db1" rfl).1

-- =========================================================================
-- Claim C1 — session close discipline
-- =========================================================================

theorem closeCalls_emit (tr : List TraceEntry) (ty msg : String)
    (ex : List (String × ExtraVal)) : closeCalls (emit tr ty msg ex) = closeCalls tr := by
  simp [emit, closeCalls, List.countP_append, List.countP_cons]

theorem opens_emit (tr : List TraceEntry) (ty msg : String)
    (ex : List (String × ExtraVal)) : opens (emit tr ty msg ex) = opens tr := by
  simp [emit, opens, List.countP_append, List.countP_cons]

theorem closeCalls_snoc_start (tr : List TraceEntry) :
    closeCalls (tr ++ [.scriptStart]) = closeCalls tr := by
  simp [closeCalls, List.countP_append, List.countP_cons]

theorem opens_snoc_start (tr : List TraceEntry) :
    opens (tr ++ [.scriptStart]) = opens tr := by
  simp [opens, List.countP_append, List.countP_cons]

theorem closeCalls_snoc_close (tr : List TraceEntry) :
    closeCalls (tr ++ [.sessionClose]) = closeCalls tr + 1 := by
  simp [closeCalls, List.countP_append, List.countP_cons]

theorem opens_snoc_close (tr : List TraceEntry) :
    opens (tr ++ [.sessionClose]) = opens tr := by
  simp [opens, List.countP_append, List.countP_cons]

/-- A Postgres call never closes or opens a session. -/
theorem query_session_counts (w : PgW) (sql : String) (p : Option (List String))
    (resp : PgResp) :
    closeCalls (PostgresWrapper.query w sql p resp).1.trace = closeCalls w.trace ∧
    opens (PostgresWrapper.query w sql p resp).1.trace = opens w.trace := by
  rcases resp with r | exc
  · rcases htok : firstToken sql with _ | tok
    · constructor <;>
        simp [PostgresWrapper.query, htok, closeCalls, opens, List.countP_append,
          List.countP_cons]
    · by_cases hsel : tok.toUpper = "SELECT"
      · rw [query_select_eq w sql p r tok htok hsel]
        constructor <;> simp [closeCalls, opens, List.countP_append, List.countP_cons]
      · rw [query_mut_eq w sql p r tok htok hsel]
        constructor <;> simp [closeCalls, opens, List.countP_append, List.countP_cons]
  · rw [query_fail_eq]
    constructor <;> simp [closeCalls, opens, List.countP_append, List.countP_cons]

/-- Running a script body never closes or opens a session. -/
theorem runActs_session_counts (body : List SAct) (tr : List TraceEntry) (dbw : DbW) :
    closeCalls (runActs body tr dbw).1 = closeCalls tr ∧
    opens (runActs body tr dbw).1 = opens tr := by
  induction body generalizing tr dbw with
  | nil => exact ⟨rfl, rfl⟩
  | cons a rest ih =>
    cases a with
    | print args =>
      have h := ih (emit tr "info" (String.intercalate " " args) []) dbw
      exact ⟨h.1.trans (closeCalls_emit tr "info" (String.intercalate " " args) []),
             h.2.trans (opens_emit tr "info" (String.intercalate " " args) [])⟩
    | importName name =>
      rcases hri : restricted_import name with e | v
      · simp [runActs, hri]
      · simp only [runActs, hri]
        exact ih tr dbw
    | raiseExc ty msg => exact ⟨rfl, rfl⟩
    | dbQuery sql p resp =>
      cases dbw with
      | mongoW oc => exact ⟨rfl, rfl⟩
      | pgW ro qc =>
        have hq := query_session_counts ⟨tr, ro, qc⟩ sql p resp
        rcases hrun : PostgresWrapper.query ⟨tr, ro, qc⟩ sql p resp with ⟨w2, res⟩
        rw [hrun] at hq
        rcases res with e | v
        · simp only [runActs, hrun]
          exact ⟨hq.1, hq.2⟩
        · have h := ih w2.trace (.pgW ro w2.query_count)
          simp only [runActs, hrun]
          exact ⟨h.1.trans hq.1, h.2.trans hq.2⟩

/-- The script phase plus finalization closes the session exactly once and
opens none. -/
theorem runScriptPhase_session_counts (tr : List TraceEntry) (dbw : DbW)
    (script : Script) :
    closeCalls (runScriptPhase tr dbw script).2 = closeCalls tr + 1 ∧
    opens (runScriptPhase tr dbw script).2 = opens tr := by
  cases script with
  | invalid lineno emsg =>
    constructor <;>
      simp [runScriptPhase, emit, closeCalls, opens, List.countP_append, List.countP_cons]
  | valid body =>
    have h := runActs_session_counts body (tr ++ [.scriptStart]) dbw
    rcases hrun : runActs body (tr ++ [.scriptStart]) dbw with ⟨tr2, dbw2, exc⟩
    rw [hrun] at h
    have hc : closeCalls tr2 = closeCalls tr :=
      h.1.trans (closeCalls_snoc_start tr)
    have ho : opens tr2 = opens tr :=
      h.2.trans (opens_snoc_start tr)
    rcases exc with _ | e <;> simp only [runScriptPhase, hrun] <;> constructor
    · rw [closeCalls_snoc_close, closeCalls_emit, hc]
    · rw [opens_snoc_close, opens_emit, ho]
    · rw [closeCalls_snoc_close, closeCalls_emit, hc]
    · rw [opens_snoc_close, opens_emit, ho]

/-- Claim C1 (counterexample): on the unsupported-database-type outcome the
close operation is invoked ZERO times, not exactly once as the claim
states for that outcome (no session was ever opened to close). -/
theorem C1_counterexample :
    (execute_script okWorld ⟨some (.valid []), some "sqlite", some sampleInst,
        some "db1"⟩).1.success = false ∧
    ((execute_script okWorld ⟨some (.valid []), some "sqlite", some sampleInst,
        some "db1"⟩).1.error).map ErrInfo.ty = some "ValueError" ∧
    closeCalls (execute_script okWorld ⟨some (.valid []), some "sqlite", some sampleInst,
        some "db1"⟩).2 = 0 ∧
    ¬ (closeCalls (execute_script okWorld ⟨some (.valid []), some "sqlite",
        some sampleInst, some "db1"⟩).2 = 1) := by
  refine ⟨by decide, by decide, by decide, by decide⟩

/-- Claim C1 (amended): on every execution, the number of session-close
invocations equals the number of sessions opened — close is invoked
exactly once whenever a database session was opened (normal completion,
syntax error, runtime error) and zero times when none was (unsupported
database type, connection failure, missing config key) — and in all cases
at most one session is opened and close is invoked at most once. -/
theorem C1_close_iff_opened (w : World) (c : ConfigDoc) :
    closeCalls (execute_script w c).2 = opens (execute_script w c).2 ∧
    opens (execute_script w c).2 ≤ 1 ∧
    closeCalls (execute_script w c).2 ≤ 1 := by
  obtain ⟨sc, dt, di, dn⟩ := c
  have main_goal :
      closeCalls (execute_script w ⟨sc, dt, di, dn⟩).2 =
        opens (execute_script w ⟨sc, dt, di, dn⟩).2 ∧
      opens (execute_script w ⟨sc, dt, di, dn⟩).2 ≤ 1 := by
    rcases sc with _ | script
    · constructor <;> simp [execute_script, failNoWrapper, emit, closeCalls, opens]
    rcases dt with _ | dbType
    · constructor <;> simp [execute_script, failNoWrapper, emit, closeCalls, opens]
    rcases di with _ | inst
    · constructor <;> simp [execute_script, failNoWrapper, emit, closeCalls, opens]
    rcases dn with _ | databaseName
    · constructor <;> simp [execute_script, failNoWrapper, emit, closeCalls, opens]
    by_cases hpg : dbType = "postgresql"
    · rcases hconn : w.pgConnectErr (mkPgConnParams w.env inst databaseName)
        with _ | e
      · have h := runScriptPhase_session_counts
          ((emit [] "info" "Starting script execution..."
              (startInfoExtras inst databaseName dbType) ++
            [.pgConnectAttempt (mkPgConnParams w.env inst databaseName)]) ++
            [.sessionOpen]) (.pgW false 0) script
        constructor <;>
          simp_all [execute_script, hpg, hconn, emit, closeCalls, opens,
            List.countP_append, List.countP_cons]
      · constructor <;>
          simp [execute_script, hpg, hconn, failNoWrapper, emit, closeCalls, opens,
            List.countP_append, List.countP_cons]
    · by_cases hmg : dbType = "mongodb"
      · rcases hconn : w.mongoConnectErr (mkMongoUri w.env inst) databaseName
          with _ | e
        · have h := runScriptPhase_session_counts
            ((emit [] "info" "Starting script execution..."
                (startInfoExtras inst databaseName dbType) ++
              [.mongoConnectAttempt (mkMongoUri w.env inst) databaseName]) ++
              [.sessionOpen]) (.mongoW 0) script
          constructor <;>
            simp_all [execute_script, hpg, hmg, hconn, emit, closeCalls, opens,
              List.countP_append, List.countP_cons]
        · constructor <;>
            simp [execute_script, hpg, hmg, hconn, failNoWrapper, emit, closeCalls,
              opens, List.countP_append, List.countP_cons]
      · constructor <;>
          simp [execute_script, hpg, hmg, failNoWrapper, emit, closeCalls, opens,
            List.countP_append, List.countP_cons]
  exact ⟨main_goal.1, main_goal.2, main_goal.1 ▸ main_goal.2⟩

end PythonWorker
